import Mathlib

/-!
Verification of the compliance-server invoice/payment ledger and auth flow.

The Python source is shallowly embedded: SQLAlchemy sessions become an
explicit database record threaded through the operations, `Decimal`
monetary values become exact rationals, and Python f-string formatting of
invoice numbers is embedded as an executable decimal renderer.
-/

namespace ComplianceServer

/-! ### Decimal rendering (embeds Python `{n:02d}` / `{n:04d}` formatting) -/

/-- Fold a big-endian list of decimal digit characters back to the number
they denote.  Used only in proofs, to invert the renderer. -/
def decodeNat (cs : List Char) : Nat :=
  cs.foldl (fun a c => 10 * a + (c.toNat - 48)) 0

/-- Big-endian decimal digit characters of `n`, empty for `0`; the first
argument is structural fuel (`n` itself suffices). -/
def natReprAux : Nat → Nat → List Char
  | 0, _ => []
  | fuel + 1, n =>
    if n = 0 then []
    else natReprAux fuel (n / 10) ++ [Nat.digitChar (n % 10)]

/-- Decimal rendering of a natural number, as Python `str(n)` / `{n:d}`. -/
def natRepr (n : Nat) : String :=
  if n = 0 then "0" else ⟨natReprAux n n⟩

/-- Python `{n:0wd}` formatting: decimal rendering left-padded with zeros
to width `w` (never truncated). -/
def padNat (w n : Nat) : String :=
  ⟨List.replicate (w - (natRepr n).length) '0' ++ (natRepr n).data⟩

theorem digitChar_toNat_sub (d : Nat) (h : d < 10) :
    (Nat.digitChar d).toNat - 48 = d := by
  interval_cases d <;> rfl

theorem decodeNat_append_singleton (cs : List Char) (c : Char) :
    decodeNat (cs ++ [c]) = 10 * decodeNat cs + (c.toNat - 48) := by
  simp [decodeNat, List.foldl_append]

theorem decodeNat_natReprAux (fuel : Nat) :
    ∀ n, n ≤ fuel → decodeNat (natReprAux fuel n) = n := by
  induction fuel with
  | zero =>
    intro n hn
    interval_cases n
    rfl
  | succ fuel ih =>
    intro n hn
    by_cases h0 : n = 0
    · subst h0; rfl
    · have hdiv : n / 10 < n := Nat.div_lt_self (Nat.pos_of_ne_zero h0) (by omega)
      have hle : n / 10 ≤ fuel := by omega
      simp only [natReprAux, h0, if_false]
      rw [decodeNat_append_singleton, ih _ hle,
        digitChar_toNat_sub _ (Nat.mod_lt _ (by omega))]
      omega

theorem decodeNat_natRepr (n : Nat) : decodeNat (natRepr n).data = n := by
  by_cases h0 : n = 0
  · subst h0; rfl
  · simp only [natRepr, h0, if_false]
    exact decodeNat_natReprAux n n (Nat.le_refl n)

theorem foldl_replicate_zero (k : Nat) :
    (List.replicate k '0').foldl (fun a c => 10 * a + (c.toNat - 48)) 0 = 0 := by
  induction k with
  | zero => rfl
  | succ k ih => simpa [List.replicate_succ, List.foldl_cons] using ih

theorem decodeNat_padNat (w n : Nat) : decodeNat (padNat w n).data = n := by
  show decodeNat (List.replicate _ '0' ++ (natRepr n).data) = n
  have h := decodeNat_natRepr n
  simp only [decodeNat, List.foldl_append] at h ⊢
  rw [foldl_replicate_zero]
  exact h

/-! ### Dates

`datetime` values compared by SQLAlchemy filters are embedded as
year/month/day triples under lexicographic order. -/

structure SDate where
  year : Nat
  month : Nat
  day : Nat
deriving DecidableEq, Repr

/-- `a <= b` on dates, lexicographically (embeds `datetime` comparison). -/
def dle (a b : SDate) : Bool :=
  decide (a.year < b.year ∨ (a.year = b.year ∧
    (a.month < b.month ∨ (a.month = b.month ∧ a.day ≤ b.day))))

/-- `a < b` on dates, lexicographically (embeds `datetime` comparison). -/
def dlt (a b : SDate) : Bool :=
  decide (a.year < b.year ∨ (a.year = b.year ∧
    (a.month < b.month ∨ (a.month = b.month ∧ a.day < b.day))))

/-! ### Financial data model (from `app/models/financial.py`)

Monetary `Decimal` columns are embedded as exact rationals; `Enum` status
columns are embedded as the strings the service actually stores (the
service assigns plain strings such as "partially_paid" that are outside
the declared enumerations, so a closed enum type would be unfaithful). -/

/-- Values of the `InvoiceStatus` enum in `app/models/financial.py`. -/
def invoiceStatusValues : List String :=
  ["draft", "sent", "paid", "overdue", "cancelled"]

/-- Values of the `PaymentStatus` enum in `app/models/financial.py`. -/
def paymentStatusValues : List String :=
  ["pending", "completed", "failed", "cancelled"]

/-- Row of the `invoices` table. -/
structure Invoice where
  id : Nat
  invoice_number : String
  client_id : Nat
  issue_date : SDate
  due_date : SDate
  subtotal : Rat
  tax_amount : Rat
  total_amount : Rat
  status : String
  notes : String
  created_at : SDate
deriving DecidableEq, Repr

/-- Row of the `invoice_items` table. -/
structure InvoiceItem where
  id : Nat
  invoice_id : Nat
  description : String
  quantity : Rat
  unit_price : Rat
  total_price : Rat
  tax_rate : Rat
deriving DecidableEq, Repr

/-- Row of the `payments` table. -/
structure Payment where
  id : Nat
  invoice_id : Nat
  amount : Rat
  payment_date : SDate
  payment_method : String
  status : String
deriving DecidableEq, Repr

/-- The relational store reached by `FinancialService`, with the id
counters the database assigns to new rows. -/
structure FinDB where
  invoices : List Invoice
  items : List InvoiceItem
  payments : List Payment
  nextInvoiceId : Nat
  nextItemId : Nat
  nextPaymentId : Nat
deriving DecidableEq, Repr

/-- Item element of the `items` list of `InvoiceCreate`
(`app/schemas/financial.py`, `InvoiceItemCreate`). -/
structure ItemInput where
  description : String
  quantity : Rat
  unit_price : Rat
  total_price : Rat
  tax_rate : Rat
deriving DecidableEq, Repr

/-- Payload of `InvoiceCreate` (`app/schemas/financial.py`); the schema
field `invoice_number` is a required `str`, so "not provided" is the
falsy empty string tested by `invoice_data.get("invoice_number")`. -/
structure InvoiceCreate where
  invoice_number : String
  client_id : Nat
  issue_date : SDate
  due_date : SDate
  subtotal : Rat
  tax_amount : Rat
  total_amount : Rat
  notes : String
  items : List ItemInput
deriving DecidableEq, Repr

/-- Payload of `InvoiceUpdate` (`app/schemas/financial.py`): every field
optional, absent fields omitted by `dict(exclude_unset=True)`. -/
structure InvoiceUpdate where
  invoice_number : Option String := none
  issue_date : Option SDate := none
  due_date : Option SDate := none
  subtotal : Option Rat := none
  tax_amount : Option Rat := none
  total_amount : Option Rat := none
  status : Option String := none
  notes : Option String := none
deriving DecidableEq, Repr

/-- Payload dict reaching `FinancialService.create_payment`.  Through the
HTTP endpoint `status` is never present (the `PaymentCreate` schema has no
such field) and the column default "pending" applies; service-level
callers may supply it, so it is kept as a field defaulting to "pending". -/
structure PaymentInput where
  invoice_id : Nat
  amount : Rat
  payment_date : SDate
  payment_method : String
  status : String := "pending"
deriving DecidableEq, Repr

/-! ### FinancialService operations (from `app/services/financial_service.py`) -/

/-- `FinancialService.get_invoice`: first row with the given id. -/
def get_invoice (db : FinDB) (invoice_id : Nat) : Option Invoice :=
  db.invoices.find? (fun i => i.id = invoice_id)

/-- The month filter `_generate_invoice_number` builds when
`today.month < 12`:
`created_at >= datetime(y, m, 1) and created_at < datetime(y, m+1, 1)`.
For December no filter exists: Python operator precedence makes the
conditional expression swallow the whole second conjunct, so `and_()`
receives the bare `datetime(year + 1, 1, 1)` object and raises
`ArgumentError` (see `generate_invoice_number`). -/
def inMonthCode (today d : SDate) : Bool :=
  dle ⟨today.year, today.month, 1⟩ d && dlt d ⟨today.year, today.month + 1, 1⟩

/-- The `count` queried by `_generate_invoice_number` (months 1–11). -/
def monthCountCode (today : SDate) (db : FinDB) : Nat :=
  (db.invoices.filter (fun i => inMonthCode today i.created_at)).length

/-- Count of invoices whose `created_at` lies in the calendar month of
`today` (the count named by the specification). -/
def monthCountSpec (today : SDate) (db : FinDB) : Nat :=
  (db.invoices.filter (fun i =>
    decide (i.created_at.year = today.year ∧ i.created_at.month = today.month))).length

/-- The f-string `f"INV-\x7byear\x7d\x7bmonth:02d\x7d-\x7bcount + 1:04d\x7d"`. -/
def formatInvoiceNumber (year month seq : Nat) : String :=
  ("INV-" ++ natRepr year ++ padNat 2 month ++ "-") ++ padNat 4 seq

/-- `FinancialService._generate_invoice_number`.  For months 1–11 it
counts the in-month invoices and formats the number; for December the
misparenthesized conditional hands the bare `datetime(year + 1, 1, 1)`
object to `and_()`, which SQLAlchemy rejects with `ArgumentError` before
any query executes, so the method raises instead of returning a number. -/
def generate_invoice_number (today : SDate) (db : FinDB) : Except String String :=
  if today.month < 12 then
    .ok (formatInvoiceNumber today.year today.month (monthCountCode today db + 1))
  else
    .error "ArgumentError: SQL expression element expected"

/-- `subtotal = sum(item["total_price"] for item in items)`. -/
def itemsSubtotal (items : List ItemInput) : Rat :=
  (items.map (fun it => it.total_price)).sum

/-- `tax_amount = sum(item.get("tax_rate", 0) * item["total_price"] / 100 ...)`. -/
def itemsTax (items : List ItemInput) : Rat :=
  (items.map (fun it => it.tax_rate * it.total_price / 100)).sum

/-- Rows inserted for the `items` list, with database-assigned ids. -/
def mkItems (startId invId : Nat) : List ItemInput → List InvoiceItem
  | [] => []
  | it :: rest =>
    { id := startId, invoice_id := invId, description := it.description,
      quantity := it.quantity, unit_price := it.unit_price,
      total_price := it.total_price, tax_rate := it.tax_rate }
      :: mkItems (startId + 1) invId rest

/-- The invoice row inserted by `create_invoice`: caller-supplied
`subtotal`, `tax_amount`, `total_amount` are overwritten by the computed
sums via `invoice_data.update`, and the `status` column default `draft`
applies (the `InvoiceCreate` schema carries no status).  The December
`ArgumentError` of `generate_invoice_number` (which aborts the whole
Python call) is collapsed to a placeholder number here: the theorems
stated over `create_invoice` never observe the generated number, while
the number itself is settled over `generate_invoice_number` directly. -/
def newInvoiceRow (today : SDate) (db : FinDB) (inp : InvoiceCreate) : Invoice :=
  { id := db.nextInvoiceId
    invoice_number :=
      if inp.invoice_number = "" then
        match generate_invoice_number today db with
        | .ok n => n
        | .error _ => ""
      else inp.invoice_number
    client_id := inp.client_id
    issue_date := inp.issue_date
    due_date := inp.due_date
    subtotal := itemsSubtotal inp.items
    tax_amount := itemsTax inp.items
    total_amount := itemsSubtotal inp.items + itemsTax inp.items
    status := "draft"
    notes := inp.notes
    created_at := today }

/-- State after the first `commit()` of `create_invoice`: the invoice row
alone is persisted. -/
def create_invoice_commit1 (today : SDate) (db : FinDB) (inp : InvoiceCreate) : FinDB :=
  { db with
    invoices := db.invoices ++ [newInvoiceRow today db inp]
    nextInvoiceId := db.nextInvoiceId + 1 }

/-- State after the second `commit()`: the item rows join the invoice. -/
def create_invoice_commit2 (today : SDate) (db : FinDB) (inp : InvoiceCreate) : FinDB :=
  let db1 := create_invoice_commit1 today db inp
  { db1 with
    items := db1.items ++ mkItems db.nextItemId (newInvoiceRow today db inp).id inp.items
    nextItemId := db.nextItemId + inp.items.length }

/-- The sequence of states `create_invoice` makes durable, in order: it
commits the invoice first and the items only in a second commit. -/
def create_invoice_commits (today : SDate) (db : FinDB) (inp : InvoiceCreate) : List FinDB :=
  [create_invoice_commit1 today db inp, create_invoice_commit2 today db inp]

/-- `FinancialService.create_invoice`: final state and returned invoice. -/
def create_invoice (today : SDate) (db : FinDB) (inp : InvoiceCreate) :
    FinDB × Invoice :=
  (create_invoice_commit2 today db inp, newInvoiceRow today db inp)

/-- In-place mutation of the first row with the given id (the ORM object
`get_invoice` returned). -/
def replaceInvoice : List Invoice → Nat → Invoice → List Invoice
  | [], _, _ => []
  | i :: rest, invoice_id, inv' =>
    if i.id = invoice_id then inv' :: rest
    else i :: replaceInvoice rest invoice_id inv'

/-- The `setattr` loop of `update_invoice`: every field present in the
payload is copied onto the row verbatim (every schema field is a real
column, so the `hasattr` guard always passes). -/
def applyInvoiceUpdate (inv : Invoice) (upd : InvoiceUpdate) : Invoice :=
  { inv with
    invoice_number := upd.invoice_number.getD inv.invoice_number
    issue_date := upd.issue_date.getD inv.issue_date
    due_date := upd.due_date.getD inv.due_date
    subtotal := upd.subtotal.getD inv.subtotal
    tax_amount := upd.tax_amount.getD inv.tax_amount
    total_amount := upd.total_amount.getD inv.total_amount
    status := upd.status.getD inv.status
    notes := upd.notes.getD inv.notes }

/-- `FinancialService.update_invoice`: `none` when the id is unknown. -/
def update_invoice (db : FinDB) (invoice_id : Nat) (upd : InvoiceUpdate) :
    Option (FinDB × Invoice) :=
  match get_invoice db invoice_id with
  | none => none
  | some inv =>
    let inv' := applyInvoiceUpdate inv upd
    some ({ db with invoices := replaceInvoice db.invoices invoice_id inv' }, inv')

/-- `FinancialService.delete_invoice`: `False` (state unchanged) when the
id is unknown; otherwise items with that `invoice_id` are deleted first,
then the invoice row, and payments are left alone. -/
def delete_invoice (db : FinDB) (invoice_id : Nat) : FinDB × Bool :=
  match get_invoice db invoice_id with
  | none => (db, false)
  | some _ =>
    ({ db with
        items := db.items.filter (fun it => !(it.invoice_id = invoice_id : Bool))
        invoices := db.invoices.eraseP (fun i => i.id = invoice_id) },
      true)

/-- `total_paid`: sum of the invoice's payments with status "completed". -/
def completedTotal (db : FinDB) (invoice_id : Nat) : Rat :=
  ((db.payments.filter (fun p =>
    decide (p.invoice_id = invoice_id ∧ p.status = "completed"))).map
      (fun p => p.amount)).sum

/-- The status `_update_invoice_payment_status` derives from `total_paid`. -/
def derivedStatus (total_paid total_amount : Rat) : String :=
  if total_paid ≥ total_amount then "paid"
  else if total_paid > 0 then "partially_paid"
  else "unpaid"

/-- `FinancialService._update_invoice_payment_status`: silently a no-op
when the invoice does not exist. -/
def update_invoice_payment_status (db : FinDB) (invoice_id : Nat) : FinDB :=
  match get_invoice db invoice_id with
  | none => db
  | some inv =>
    { db with
      invoices := replaceInvoice db.invoices invoice_id
        { inv with status := derivedStatus (completedTotal db invoice_id) inv.total_amount } }

/-- The payment row inserted by `create_payment`. -/
def newPaymentRow (db : FinDB) (inp : PaymentInput) : Payment :=
  { id := db.nextPaymentId, invoice_id := inp.invoice_id, amount := inp.amount,
    payment_date := inp.payment_date, payment_method := inp.payment_method,
    status := inp.status }

/-- State after `create_payment` commits the payment row, before the
invoice status recomputation. -/
def insertPaymentState (db : FinDB) (inp : PaymentInput) : FinDB :=
  { db with
    payments := db.payments ++ [newPaymentRow db inp]
    nextPaymentId := db.nextPaymentId + 1 }

/-- `FinancialService.create_payment`: persists the payment row, then
recomputes the parent invoice's status.  No existence check is made on
the invoice and no error path exists. -/
def create_payment (db : FinDB) (inp : PaymentInput) : FinDB × Payment :=
  (update_invoice_payment_status (insertPaymentState db inp) inp.invoice_id,
   newPaymentRow db inp)

/-! ### User data model (from `app/models/user.py`) -/

/-- Values of the `UserStatus` enum in `app/models/user.py`. -/
def userStatusValues : List String :=
  ["active", "inactive", "suspended", "pending"]

/-- Row of the `users` table.  `last_login` is an abstract timestamp. -/
structure User where
  id : Nat
  email : String
  username : String
  full_name : String
  hashed_password : String
  role : String
  status : String
  phone : Option String := none
  department : Option String := none
  last_login : Option Nat := none
  created_by : Option Nat := none
deriving DecidableEq, Repr

/-- Row of the `audit_logs` table (fields the claims observe). -/
structure AuditLog where
  user_id : Nat
  action : String
  resource : String
  resource_id : Option Nat := none
deriving DecidableEq, Repr

/-- The relational store reached by `UserService`. -/
structure UserDB where
  users : List User
  audit_logs : List AuditLog
  nextUserId : Nat
deriving DecidableEq, Repr

/-- Payload dict reaching `UserService.create_user` (the `register`
endpoint passes a raw dict, so `role` may be absent). -/
structure UserCreateInput where
  email : String
  username : String
  full_name : String
  password : String
  role : Option String := none
  phone : Option String := none
  department : Option String := none
  created_by : Option Nat := none
deriving DecidableEq, Repr

/-! ### Security primitives

`app/core/security.py` is not present in the source tree (only its
callers are), so the two primitives are modelled from the spec. -/

/-- Modelled from the spec: `get_password_hash` from the missing
`app/core/security.py` — "hashes the password with a one-way, salted
scheme (verification must be the exact inverse used by `login`)".
Embedded as an injective tagging function; one-wayness is not a
functional property and is not modelled. -/
def get_password_hash (password : String) : String :=
  "hashed$" ++ password

/-- Modelled from the spec: `verify_password` from the missing
`app/core/security.py` — the exact inverse of `get_password_hash`. -/
def verify_password (plain hashed : String) : Bool :=
  get_password_hash plain = hashed

/-- The process-wide signing key (`app/core/config.py`, `SECRET_KEY`). -/
def SECRET_KEY : String := "your-secret-key-change-in-production"

/-- Modelled from the spec: the token issued by the missing
`create_access_token` — "an opaque, cryptographically signed bearer
credential binding a username and an expiry instant"; the signature is
abstracted as the key the token was signed with, and the `sub` claim may
be absent in an arbitrary well-formed token. -/
structure Token where
  sub : Option String
  exp : Nat
  sig : String
deriving DecidableEq, Repr

/-- `create_access_token(data=\x7b"sub": user.username\x7d, expires_delta=...)`
as called by `login`: expiry is now plus the configured lifetime. -/
def create_access_token (now lifetime : Nat) (username : String) : Token :=
  { sub := some username, exp := now + lifetime, sig := SECRET_KEY }

/-- Modelled from the spec: `verify_token` from the missing
`app/core/security.py` — "a token is valid only before its expiry and
only if its signature verifies against the server's secret key"; on
success it yields the decoded payload (the optional username claim). -/
def verify_token (now : Nat) (t : Token) : Except Unit (Option String) :=
  if t.sig = SECRET_KEY ∧ now < t.exp then .ok t.sub else .error ()

/-! ### UserService / auth endpoints
(from `app/services/user_service.py` and
`app/api/api_v1/endpoints/auth.py`) -/

/-- `UserService.get_user_by_username`. -/
def get_user_by_username (db : UserDB) (username : String) : Option User :=
  db.users.find? (fun u => u.username = username)

/-- `UserService.get_user_by_email`. -/
def get_user_by_email (db : UserDB) (email : String) : Option User :=
  db.users.find? (fun u => u.email = email)

/-- `UserService.create_user`: raises `ValueError` (embedded as the
exception's message) exactly on a duplicate username or email; otherwise
persists the user — the `User(...)` constructor call passes no `status`,
so the column default "pending" applies, and `role` defaults to
"client" — and appends a CREATE_USER audit row. -/
def create_user (db : UserDB) (data : UserCreateInput) :
    Except String (UserDB × User) :=
  if (get_user_by_username db data.username).isSome then
    .error "Username already exists"
  else if (get_user_by_email db data.email).isSome then
    .error "Email already exists"
  else
    let user : User :=
      { id := db.nextUserId
        email := data.email
        username := data.username
        full_name := data.full_name
        hashed_password := get_password_hash data.password
        role := data.role.getD "client"
        status := "pending"
        phone := data.phone
        department := data.department
        created_by := data.created_by }
    let log : AuditLog :=
      { user_id := user.id, action := "CREATE_USER", resource := "user",
        resource_id := some user.id }
    .ok ({ db with
            users := db.users ++ [user]
            audit_logs := db.audit_logs ++ [log]
            nextUserId := db.nextUserId + 1 },
          user)

/-- In-place mutation of the first user row with the given username. -/
def replaceUserByName : List User → String → User → List User
  | [], _, _ => []
  | u :: rest, username, u' =>
    if u.username = username then u' :: rest
    else u :: replaceUserByName rest username u'

/-- `UserService.authenticate_user`: `None` (→ 401) when the username is
unknown or the password does not verify; otherwise stamps `last_login`
and returns the user.  The user's `status` is never consulted. -/
def authenticate_user (now : Nat) (db : UserDB) (username password : String) :
    Option (UserDB × User) :=
  match get_user_by_username db username with
  | none => none
  | some u =>
    if verify_password password u.hashed_password then
      let u' := { u with last_login := some now }
      some ({ db with users := replaceUserByName db.users username u' }, u')
    else
      none

/-- The `login` endpoint: `none` is the 401 `Unauthorized` response;
success issues a token whose `sub` is the username. -/
def login (now lifetime : Nat) (db : UserDB) (username password : String) :
    Option (UserDB × Token) :=
  match authenticate_user now db username password with
  | none => none
  | some (db', user) => some (db', create_access_token now lifetime user.username)

/-- `get_current_user` (auth endpoint dependency): `none` is the 401
`credentials_exception`, raised when the token fails verification, the
`sub` claim is absent, or no user has that username.  The resolved
user's `status` is never consulted. -/
def get_current_user (now : Nat) (db : UserDB) (t : Token) : Option User :=
  match verify_token now t with
  | .error _ => none
  | .ok none => none
  | .ok (some username) => get_user_by_username db username

/-! ### Helper lemmas -/

theorem find?_append_none {α : Type} (p : α → Bool) (l1 l2 : List α)
    (h : l1.find? p = none) : (l1 ++ l2).find? p = l2.find? p := by
  induction l1 with
  | nil => rfl
  | cons x t ih =>
    rw [List.find?_cons] at h
    cases hx : p x with
    | true => rw [hx] at h; exact absurd h (by simp)
    | false =>
      rw [hx] at h
      simpa [List.find?_cons, hx] using ih h

theorem replaceInvoice_find? (l : List Invoice) (invoice_id : Nat) (inv inv' : Invoice)
    (hfind : l.find? (fun i => i.id = invoice_id) = some inv)
    (hid : inv'.id = invoice_id) :
    (replaceInvoice l invoice_id inv').find? (fun i => i.id = invoice_id) = some inv' := by
  induction l with
  | nil => simp at hfind
  | cons x t ih =>
    by_cases hx : x.id = invoice_id
    · simp [replaceInvoice, hx, List.find?_cons, hid]
    · have hfind' : t.find? (fun i => decide (i.id = invoice_id)) = some inv := by
        simpa [List.find?_cons, hx] using hfind
      simp [replaceInvoice, hx, List.find?_cons, ih hfind']

theorem mkItems_length (startId invId : Nat) (items : List ItemInput) :
    (mkItems startId invId items).length = items.length := by
  induction items generalizing startId with
  | nil => rfl
  | cons it rest ih => simp [mkItems, ih]

theorem mkItems_filter_self (startId invId : Nat) (items : List ItemInput) :
    (mkItems startId invId items).filter (fun it => it.invoice_id = invId) =
      mkItems startId invId items := by
  induction items generalizing startId with
  | nil => rfl
  | cons it rest ih => simp [mkItems, List.filter_cons, ih]

theorem find?_eraseP_of_count_le_one {α : Type} (l : List α) (p : α → Bool)
    (h : (l.filter p).length ≤ 1) : (l.eraseP p).find? p = none := by
  induction l with
  | nil => rfl
  | cons x t ih =>
    by_cases hx : p x = true
    · rw [List.eraseP_cons, hx]
      simp only [List.filter_cons, hx, if_true, List.length_cons] at h
      apply List.find?_eq_none.mpr
      have hnil : t.filter p = [] := List.length_eq_zero.mp (by omega)
      exact List.filter_eq_nil_iff.mp hnil
    · have hx' : p x = false := by simpa using hx
      rw [List.eraseP_cons, hx']
      show (x :: t.eraseP p).find? p = none
      rw [List.find?_cons, hx']
      simp only [Bool.false_eq_true, if_false]
      apply ih
      simpa [List.filter_cons, hx'] using h

theorem inMonthCode_true_iff (today d : SDate) (hday : 1 ≤ d.day) :
    inMonthCode today d = true ↔ (d.year = today.year ∧ d.month = today.month) := by
  unfold inMonthCode dle dlt
  simp only [Bool.and_eq_true, decide_eq_true_eq]
  omega

theorem monthCountCode_eq_spec (today : SDate) (db : FinDB)
    (hGood : ∀ i ∈ db.invoices, 1 ≤ i.created_at.day) :
    monthCountCode today db = monthCountSpec today db := by
  unfold monthCountCode monthCountSpec
  congr 1
  apply List.filter_congr
  intro i hi
  have hiff := inMonthCode_true_iff today i.created_at (hGood i hi)
  rw [Bool.eq_iff_iff, hiff, decide_eq_true_eq]

theorem inMonthCode_true_of_sameMonth (today d : SDate)
    (hy : d.year = today.year) (hm : d.month = today.month) (hday : 1 ≤ d.day) :
    inMonthCode today d = true := by
  unfold inMonthCode dle dlt
  simp only [Bool.and_eq_true, decide_eq_true_eq]
  omega

theorem monthCountCode_append_one (today : SDate) (db : FinDB) (inv : Invoice)
    (hin : inMonthCode today inv.created_at = true) :
    monthCountCode today { db with invoices := db.invoices ++ [inv] } =
      monthCountCode today db + 1 := by
  unfold monthCountCode
  simp [List.filter_append, List.filter_cons, hin]

theorem formatInvoiceNumber_seq_inj (y m s1 s2 : Nat)
    (h : formatInvoiceNumber y m s1 = formatInvoiceNumber y m s2) : s1 = s2 := by
  unfold formatInvoiceNumber at h
  have hd := congrArg String.data h
  rw [String.data_append, String.data_append] at hd
  have hc := List.append_cancel_left hd
  exact ((decodeNat_padNat 4 s1).symm.trans (congrArg decodeNat hc)).trans
    (decodeNat_padNat 4 s2)

/-! ### Concrete fixtures -/

def emptyFinDB : FinDB :=
  { invoices := [], items := [], payments := [],
    nextInvoiceId := 1, nextItemId := 1, nextPaymentId := 1 }

def c2Today : SDate := ⟨2026, 10, 12⟩

def c2Item : ItemInput :=
  { description := "consulting", quantity := 1, unit_price := 15000,
    total_price := 15000, tax_rate := 18 }

/-- The spec's verification input, with deliberately wrong caller-supplied
totals so the overwrite is visible. -/
def c2Inp : InvoiceCreate :=
  { invoice_number := "INV-202610-0001", client_id := 1,
    issue_date := ⟨2026, 10, 12⟩, due_date := ⟨2026, 11, 11⟩,
    subtotal := 999, tax_amount := 999, total_amount := 999,
    notes := "", items := [c2Item] }

/-! ### Claim theorems -/

/-- C2: every invoice created through `create_invoice` stores
`subtotal = Σ item.total_price`, `tax_amount = Σ (tax_rate * total_price / 100)`
and `total_amount = subtotal + tax_amount`, exactly over the rationals
(the embedding of exact decimal arithmetic); the stored totals do not
depend on any caller-supplied `subtotal`/`tax_amount`/`total_amount`
(those are overwritten); and the spec's sample item (quantity 1, price
15000.00, tax 18.0) yields subtotal 15000, tax 2700 and total 17700. -/
theorem create_invoice_totals_exact :
    (∀ (today : SDate) (db : FinDB) (inp : InvoiceCreate),
      (create_invoice today db inp).2.subtotal = itemsSubtotal inp.items ∧
      (create_invoice today db inp).2.tax_amount = itemsTax inp.items ∧
      (create_invoice today db inp).2.total_amount =
        itemsSubtotal inp.items + itemsTax inp.items ∧
      ∀ sub tax tot : Rat,
        (create_invoice today db
          { inp with subtotal := sub, tax_amount := tax, total_amount := tot }).2 =
          (create_invoice today db inp).2) ∧
    ((create_invoice c2Today emptyFinDB c2Inp).2.subtotal = 15000 ∧
     (create_invoice c2Today emptyFinDB c2Inp).2.tax_amount = 2700 ∧
     (create_invoice c2Today emptyFinDB c2Inp).2.total_amount = 17700) := by
  constructor
  · intro today db inp
    exact ⟨rfl, rfl, rfl, fun sub tax tot => rfl⟩
  · refine ⟨?_, ?_, ?_⟩ <;>
      norm_num [create_invoice, newInvoiceRow, itemsSubtotal, itemsTax, c2Inp, c2Item]

def c5Inv : Invoice :=
  { id := 1, invoice_number := "INV-202601-0001", client_id := 1,
    issue_date := ⟨2026, 1, 1⟩, due_date := ⟨2026, 1, 31⟩,
    subtotal := 100, tax_amount := 0, total_amount := 100,
    status := "draft", notes := "", created_at := ⟨2026, 1, 1⟩ }

def c5DB : FinDB :=
  { invoices := [c5Inv], items := [], payments := [],
    nextInvoiceId := 2, nextItemId := 1, nextPaymentId := 1 }

/-- An update that supplies only a new `subtotal`. -/
def c5Upd : InvoiceUpdate := { subtotal := some 1 }

/-- An update touching none of the three monetary fields. -/
def c5StatusUpd : InvoiceUpdate := { status := some "sent" }

/-- The state and row `update_invoice c5DB 1 c5StatusUpd` returns. -/
def c5StatusResult : FinDB × Invoice :=
  ({ c5DB with invoices := [{ c5Inv with status := "sent" }] },
   { c5Inv with status := "sent" })

/-- C5 counterexample: `update_invoice` copies a caller-supplied
`subtotal` verbatim, so the invoice it returns for the update
`\x7bsubtotal: 1\x7d` on an invoice with `total_amount = 100`,
`tax_amount = 0` violates `total_amount = subtotal + tax_amount`. -/
theorem update_invoice_breaks_totals :
    (update_invoice c5DB 1 c5Upd).isSome = true ∧
    ((update_invoice c5DB 1 c5Upd).map (fun r => r.2.total_amount)) ≠
      ((update_invoice c5DB 1 c5Upd).map (fun r => r.2.subtotal + r.2.tax_amount)) := by
  constructor
  · rfl
  · simp only [update_invoice, get_invoice, c5DB, c5Inv, c5Upd, applyInvoiceUpdate,
      replaceInvoice, List.find?, Option.map_some]
    norm_num

/-- C5 amended: invoices satisfy `total_amount = subtotal + tax_amount`
as created, and `update_invoice` preserves the equation whenever the
update supplies none of `subtotal`, `tax_amount`, `total_amount`; an
update supplying any of them verbatim can break it. -/
theorem totals_invariant_creation_and_update :
    (∀ (today : SDate) (db : FinDB) (inp : InvoiceCreate),
      (create_invoice today db inp).2.total_amount =
        (create_invoice today db inp).2.subtotal +
          (create_invoice today db inp).2.tax_amount) ∧
    (∀ (db : FinDB) (invoice_id : Nat) (upd : InvoiceUpdate)
        (r : FinDB × Invoice) (inv : Invoice),
      upd.subtotal = none → upd.tax_amount = none → upd.total_amount = none →
      get_invoice db invoice_id = some inv →
      inv.total_amount = inv.subtotal + inv.tax_amount →
      update_invoice db invoice_id upd = some r →
      r.2.total_amount = r.2.subtotal + r.2.tax_amount) := by
  constructor
  · intro today db inp; rfl
  · intro db invoice_id upd r inv h1 h2 h3 hfind hinv hupd
    simp only [update_invoice, hfind] at hupd
    obtain rfl := Option.some_inj.mp hupd
    simpa [applyInvoiceUpdate, h1, h2, h3] using hinv

/-- C5 amended, witness: a status-only update on a concrete invoice
keeps `total_amount = subtotal + tax_amount`. -/
theorem totals_invariant_update_witness :
    c5StatusResult.2.total_amount =
      c5StatusResult.2.subtotal + c5StatusResult.2.tax_amount :=
  totals_invariant_creation_and_update.2 c5DB 1 c5StatusUpd c5StatusResult c5Inv
    rfl rfl rfl (by rfl) (by norm_num [c5Inv]) (by rfl)

def c6Today : SDate := ⟨2026, 10, 12⟩

def c6Item : ItemInput :=
  { description := "filing", quantity := 1, unit_price := 500,
    total_price := 500, tax_rate := 0 }

def c6Inp : InvoiceCreate :=
  { invoice_number := "INV-A", client_id := 1,
    issue_date := ⟨2026, 10, 12⟩, due_date := ⟨2026, 10, 30⟩,
    subtotal := 0, tax_amount := 0, total_amount := 0,
    notes := "", items := [c6Item] }

/-- C6 counterexample: the first commit of `create_invoice` is an
observable durable state in which the new invoice (id 1) is visible
while zero of its one item rows exist, so creation is not all-or-nothing. -/
theorem create_invoice_not_atomic :
    (get_invoice (create_invoice_commit1 c6Today emptyFinDB c6Inp) 1).isSome = true ∧
    ((create_invoice_commit1 c6Today emptyFinDB c6Inp).items.filter
      (fun it => it.invoice_id = 1)).length = 0 ∧
    c6Inp.items.length = 1 ∧
    create_invoice_commit1 c6Today emptyFinDB c6Inp ∈
      create_invoice_commits c6Today emptyFinDB c6Inp := by
  refine ⟨?_, ?_, ?_, ?_⟩
  · rfl
  · rfl
  · rfl
  · exact List.Mem.head _

/-- C6 amended: `create_invoice` persists in two successive commits —
after the first the invoice row is visible with none of its items, and
only after the second are all item rows visible alongside it; a failure
between the commits therefore leaves the invoice persisted without
items. -/
theorem create_invoice_two_commits (today : SDate) (db : FinDB) (inp : InvoiceCreate)
    (hinv : ∀ i ∈ db.invoices, i.id ≠ db.nextInvoiceId)
    (hit : ∀ it ∈ db.items, it.invoice_id ≠ db.nextInvoiceId) :
    create_invoice_commits today db inp =
      [create_invoice_commit1 today db inp, (create_invoice today db inp).1] ∧
    get_invoice (create_invoice_commit1 today db inp) db.nextInvoiceId =
      some (newInvoiceRow today db inp) ∧
    ((create_invoice_commit1 today db inp).items.filter
      (fun it => it.invoice_id = db.nextInvoiceId)).length = 0 ∧
    get_invoice ((create_invoice today db inp).1) db.nextInvoiceId =
      some (newInvoiceRow today db inp) ∧
    (((create_invoice today db inp).1).items.filter
      (fun it => it.invoice_id = db.nextInvoiceId)).length = inp.items.length := by
  have hnone : db.invoices.find? (fun i => i.id = db.nextInvoiceId) = none :=
    List.find?_eq_none.mpr (fun i hi => by simpa using hinv i hi)
  have hfind : (db.invoices ++ [newInvoiceRow today db inp]).find?
      (fun i => i.id = db.nextInvoiceId) = some (newInvoiceRow today db inp) := by
    rw [find?_append_none _ _ _ hnone]
    simp [List.find?_cons, newInvoiceRow]
  have hfilter : db.items.filter (fun it => it.invoice_id = db.nextInvoiceId) = [] :=
    List.filter_eq_nil_iff.mpr (fun it hi => by simpa using hit it hi)
  refine ⟨rfl, ?_, ?_, ?_, ?_⟩
  · exact hfind
  · show (db.items.filter _).length = 0
    rw [hfilter]; rfl
  · exact hfind
  · show ((db.items ++ mkItems db.nextItemId (newInvoiceRow today db inp).id inp.items).filter
      (fun it => it.invoice_id = db.nextInvoiceId)).length = inp.items.length
    rw [List.filter_append, hfilter]
    show (((mkItems db.nextItemId db.nextInvoiceId inp.items).filter
      (fun it => it.invoice_id = db.nextInvoiceId))).length = inp.items.length
    rw [mkItems_filter_self, mkItems_length]

/-- C6 amended, witness: on a concrete one-item invoice the final state
shows the invoice with its one item. -/
theorem create_invoice_two_commits_witness :
    get_invoice ((create_invoice c6Today emptyFinDB c6Inp).1) 1 =
      some (newInvoiceRow c6Today emptyFinDB c6Inp) ∧
    (((create_invoice c6Today emptyFinDB c6Inp).1).items.filter
      (fun it => it.invoice_id = 1)).length = 1 := by
  have h := create_invoice_two_commits c6Today emptyFinDB c6Inp
    (by decide) (by decide)
  exact ⟨h.2.2.2.1, h.2.2.2.2⟩

def c7Today : SDate := ⟨2026, 10, 12⟩

def c7InvA : Invoice :=
  { id := 1, invoice_number := "INV-202609-0001", client_id := 1,
    issue_date := ⟨2026, 9, 3⟩, due_date := ⟨2026, 10, 3⟩,
    subtotal := 100, tax_amount := 18, total_amount := 118,
    status := "sent", notes := "", created_at := ⟨2026, 9, 3⟩ }

def c7InvB : Invoice :=
  { id := 2, invoice_number := "INV-202610-0001", client_id := 1,
    issue_date := ⟨2026, 10, 2⟩, due_date := ⟨2026, 11, 2⟩,
    subtotal := 200, tax_amount := 36, total_amount := 236,
    status := "draft", notes := "", created_at := ⟨2026, 10, 2⟩ }

def c7InvC : Invoice :=
  { id := 3, invoice_number := "INV-202610-0002", client_id := 2,
    issue_date := ⟨2026, 10, 9⟩, due_date := ⟨2026, 11, 9⟩,
    subtotal := 50, tax_amount := 0, total_amount := 50,
    status := "draft", notes := "", created_at := ⟨2026, 10, 9⟩ }

def c7DB : FinDB :=
  { invoices := [c7InvA, c7InvB, c7InvC], items := [], payments := [],
    nextInvoiceId := 4, nextItemId := 1, nextPaymentId := 1 }

/-- C7 (code bug): with the current date in any month January–November,
`_generate_invoice_number` returns exactly `INV-` ++ year ++ zero-padded
month (width 2) ++ `-` ++ zero-padded sequence (width 4), where the
sequence is one plus the count of invoices created in that calendar
month (provided every stored invoice has a valid day-of-month), and
appending one more invoice created in that month changes the generated
number, so sequential creation yields distinct numbers within a month;
but for every December date the method raises `ArgumentError` instead of
generating the claimed number — the misparenthesized conditional hands
the bare `datetime(year + 1, 1, 1)` object to `and_()` — even though
that very object is the correct December upper bound the code meant to
compare against. -/
theorem generated_invoice_number_format (today : SDate) (db : FinDB)
    (hm : today.month < 12)
    (hGood : ∀ i ∈ db.invoices, 1 ≤ i.created_at.day) :
    generate_invoice_number today db =
      .ok (formatInvoiceNumber today.year today.month (monthCountSpec today db + 1)) ∧
    (∀ inv : Invoice,
      inv.created_at.year = today.year → inv.created_at.month = today.month →
      1 ≤ inv.created_at.day →
      generate_invoice_number today { db with invoices := db.invoices ++ [inv] } ≠
        generate_invoice_number today db) ∧
    (∀ (year day : Nat) (db' : FinDB),
      generate_invoice_number ⟨year, 12, day⟩ db' =
        .error "ArgumentError: SQL expression element expected") := by
  refine ⟨?_, ?_, ?_⟩
  · unfold generate_invoice_number
    rw [if_pos hm, monthCountCode_eq_spec today db hGood]
  · intro inv hy hmo hd hne
    unfold generate_invoice_number at hne
    rw [if_pos hm, if_pos hm] at hne
    have hok := Except.ok.inj hne
    rw [monthCountCode_append_one today db inv
      (inMonthCode_true_of_sameMonth today inv.created_at hy hmo hd)] at hok
    have := formatInvoiceNumber_seq_inj _ _ _ _ hok
    omega
  · intro year day db'
    unfold generate_invoice_number
    rw [if_neg (show ¬(12 : Nat) < 12 by omega)]

/-- C7 witness: over a store holding one September and two October 2026
invoices, the October number generated on 2026-10-12 is
`INV-202610-0003`, while on 2026-12-05 the same store yields the
`ArgumentError` raise. -/
theorem generated_invoice_number_format_witness :
    generate_invoice_number c7Today c7DB =
      .ok (formatInvoiceNumber 2026 10 (monthCountSpec c7Today c7DB + 1)) ∧
    generate_invoice_number c7Today c7DB = .ok "INV-202610-0003" ∧
    generate_invoice_number ⟨2026, 12, 5⟩ c7DB =
      .error "ArgumentError: SQL expression element expected" := by
  have h := generated_invoice_number_format c7Today c7DB (by decide) (by decide)
  exact ⟨h.1, by rfl, h.2.2 2026 5 c7DB⟩

theorem completedTotal_congr (db db' : FinDB) (invoice_id : Nat)
    (h : db.payments = db'.payments) :
    completedTotal db invoice_id = completedTotal db' invoice_id := by
  unfold completedTotal
  rw [h]

theorem update_status_spec (db : FinDB) (invoice_id : Nat) (inv : Invoice)
    (h : get_invoice db invoice_id = some inv) :
    get_invoice (update_invoice_payment_status db invoice_id) invoice_id =
      some { inv with
              status := derivedStatus (completedTotal db invoice_id) inv.total_amount } ∧
    (update_invoice_payment_status db invoice_id).payments = db.payments := by
  have hid : inv.id = invoice_id := by
    simpa using List.find?_some h
  simp only [update_invoice_payment_status, h]
  exact ⟨replaceInvoice_find? db.invoices invoice_id inv _ h hid, trivial⟩

theorem completedTotal_insert (db : FinDB) (inp : PaymentInput) (invoice_id : Nat)
    (hne : inp.status ≠ "completed") :
    completedTotal (insertPaymentState db inp) invoice_id =
      completedTotal db invoice_id := by
  have hnil : [newPaymentRow db inp].filter (fun p =>
      decide (p.invoice_id = invoice_id ∧ p.status = "completed")) = [] := by
    simp [List.filter_cons, newPaymentRow, hne]
  unfold completedTotal insertPaymentState
  rw [List.filter_append, hnil, List.append_nil]

theorem derivedStatus_mem (total_paid total_amount : Rat) :
    derivedStatus total_paid total_amount = "paid" ∨
    derivedStatus total_paid total_amount = "partially_paid" ∨
    derivedStatus total_paid total_amount = "unpaid" := by
  unfold derivedStatus
  split
  · exact Or.inl rfl
  · split
    · exact Or.inr (Or.inl rfl)
    · exact Or.inr (Or.inr rfl)

def c3Inv : Invoice :=
  { id := 1, invoice_number := "INV-202610-0001", client_id := 1,
    issue_date := ⟨2026, 10, 1⟩, due_date := ⟨2026, 10, 31⟩,
    subtotal := 100, tax_amount := 0, total_amount := 100,
    status := "unpaid", notes := "", created_at := ⟨2026, 10, 1⟩ }

def c3DB : FinDB :=
  { invoices := [c3Inv], items := [], payments := [],
    nextInvoiceId := 2, nextItemId := 1, nextPaymentId := 1 }

/-- A failed payment against invoice 1. -/
def c3Pay : PaymentInput :=
  { invoice_id := 1, amount := 100, payment_date := ⟨2026, 10, 12⟩,
    payment_method := "cash", status := "failed" }

/-- C3: after `create_payment` on an existing invoice, the invoice's
status equals the derivation from `totalPaid` — the sum of amounts of
that invoice's payments with status "completed" in the resulting store:
"paid" when `totalPaid >= total_amount`, else "partially_paid" when
`totalPaid > 0`, else "unpaid"; a payment whose status is not
"completed" leaves `totalPaid` unchanged, and in particular a "failed"
payment of any amount leaves an invoice whose derived status was
"unpaid" still "unpaid". -/
theorem payment_status_derivation (db : FinDB) (inp : PaymentInput) (inv : Invoice)
    (h : get_invoice db inp.invoice_id = some inv) :
    ∃ inv',
      get_invoice (create_payment db inp).1 inp.invoice_id = some inv' ∧
      inv'.total_amount = inv.total_amount ∧
      inv'.status = derivedStatus
        (completedTotal (create_payment db inp).1 inp.invoice_id) inv.total_amount ∧
      (inp.status ≠ "completed" →
        completedTotal (create_payment db inp).1 inp.invoice_id =
          completedTotal db inp.invoice_id) ∧
      ((inp.status = "failed" ∧
          derivedStatus (completedTotal db inp.invoice_id) inv.total_amount = "unpaid") →
        inv'.status = "unpaid") := by
  have h1 : get_invoice (insertPaymentState db inp) inp.invoice_id = some inv := h
  obtain ⟨hget, hpay⟩ := update_status_spec (insertPaymentState db inp) inp.invoice_id inv h1
  have hctEq : completedTotal (create_payment db inp).1 inp.invoice_id =
      completedTotal (insertPaymentState db inp) inp.invoice_id :=
    completedTotal_congr _ _ _ hpay
  refine ⟨_, hget, rfl, ?_, ?_, ?_⟩
  · show derivedStatus (completedTotal (insertPaymentState db inp) inp.invoice_id)
      inv.total_amount = _
    rw [hctEq]
  · intro hne
    rw [hctEq]
    exact completedTotal_insert db inp inp.invoice_id hne
  · rintro ⟨hfail, hunpaid⟩
    show derivedStatus (completedTotal (insertPaymentState db inp) inp.invoice_id)
      inv.total_amount = "unpaid"
    rw [completedTotal_insert db inp inp.invoice_id (by rw [hfail]; decide)]
    exact hunpaid

/-- C3 witness: a failed payment of 100 against a concrete invoice with
`total_amount = 100` and no completed payments leaves the stored status
"unpaid". -/
theorem payment_status_derivation_witness :
    ∃ inv',
      get_invoice (create_payment c3DB c3Pay).1 1 = some inv' ∧
      inv'.total_amount = c3Inv.total_amount ∧
      inv'.status = derivedStatus
        (completedTotal (create_payment c3DB c3Pay).1 1) c3Inv.total_amount ∧
      (c3Pay.status ≠ "completed" →
        completedTotal (create_payment c3DB c3Pay).1 1 = completedTotal c3DB 1) ∧
      ((c3Pay.status = "failed" ∧
          derivedStatus (completedTotal c3DB 1) c3Inv.total_amount = "unpaid") →
        inv'.status = "unpaid") :=
  payment_status_derivation c3DB c3Pay c3Inv (by rfl)

def c10Inv : Invoice :=
  { id := 1, invoice_number := "INV-202610-0009", client_id := 1,
    issue_date := ⟨2026, 10, 1⟩, due_date := ⟨2026, 10, 31⟩,
    subtotal := 0, tax_amount := 0, total_amount := 0,
    status := "draft", notes := "", created_at := ⟨2026, 10, 1⟩ }

def c10DB : FinDB :=
  { invoices := [c10Inv], items := [], payments := [],
    nextInvoiceId := 2, nextItemId := 1, nextPaymentId := 1 }

/-- A pending payment against invoice 1 (the endpoint default). -/
def c10Pay : PaymentInput :=
  { invoice_id := 1, amount := 25, payment_date := ⟨2026, 10, 12⟩,
    payment_method := "cash" }

/-- C10 counterexample: on an invoice whose `total_amount` is 0 (as an
item-less `create_invoice` produces), status "draft" and no completed
payments, recording a pending payment overwrites the status with "paid",
not "unpaid" — `total_paid >= total_amount` holds at `0 >= 0`. -/
theorem zero_total_invoice_goes_paid :
    ((get_invoice c10DB 1).map (fun i => i.status)) = some "draft" ∧
    completedTotal (create_payment c10DB c10Pay).1 1 = 0 ∧
    ((get_invoice (create_payment c10DB c10Pay).1 1).map (fun i => i.status)) =
      some "paid" := by
  refine ⟨rfl, ?_, ?_⟩ <;>
    simp +decide [create_payment, insertPaymentState, newPaymentRow,
      update_invoice_payment_status, get_invoice, completedTotal, derivedStatus,
      replaceInvoice, c10DB, c10Inv, c10Pay, List.find?, List.filter_cons]

/-- C10 amended: after any `create_payment` on an existing invoice the
stored status is one of "paid", "partially_paid", "unpaid" — regardless
of the prior status, which is silently overwritten even though
"partially_paid" and "unpaid" are not members of the declared
`InvoiceStatus` enumeration; when the resulting store has no completed
payments for the invoice and its `total_amount` is positive, the status
becomes "unpaid" (with `total_amount = 0` the zero sum already counts as
fully paid and the status becomes "paid"). -/
theorem payment_status_always_overwritten (db : FinDB) (inp : PaymentInput)
    (inv : Invoice) (h : get_invoice db inp.invoice_id = some inv) :
    ∃ inv',
      get_invoice (create_payment db inp).1 inp.invoice_id = some inv' ∧
      (inv'.status = "paid" ∨ inv'.status = "partially_paid" ∨
        inv'.status = "unpaid") ∧
      ("partially_paid" ∉ invoiceStatusValues ∧ "unpaid" ∉ invoiceStatusValues) ∧
      (completedTotal (create_payment db inp).1 inp.invoice_id = 0 →
        0 < inv.total_amount → inv'.status = "unpaid") := by
  have h1 : get_invoice (insertPaymentState db inp) inp.invoice_id = some inv := h
  obtain ⟨hget, hpay⟩ :=
    update_status_spec (insertPaymentState db inp) inp.invoice_id inv h1
  refine ⟨_, hget, derivedStatus_mem _ _, ⟨by decide, by decide⟩, ?_⟩
  intro h0 hpos
  have h0' : completedTotal (insertPaymentState db inp) inp.invoice_id = 0 := by
    rw [← completedTotal_congr _ _ inp.invoice_id hpay]
    exact h0
  show derivedStatus (completedTotal (insertPaymentState db inp) inp.invoice_id)
    inv.total_amount = "unpaid"
  rw [h0']
  unfold derivedStatus
  rw [if_neg (not_le.mpr hpos), if_neg (lt_irrefl 0)]

/-- C10 amended, witness: a pending payment against a concrete "sent"
invoice with positive total and no completed payments drives the status
to "unpaid". -/
theorem payment_status_always_overwritten_witness :
    ∃ inv',
      get_invoice (create_payment c3DB
        { invoice_id := 1, amount := 10, payment_date := ⟨2026, 10, 13⟩,
          payment_method := "cash" }).1 1 = some inv' ∧
      (inv'.status = "paid" ∨ inv'.status = "partially_paid" ∨
        inv'.status = "unpaid") ∧
      ("partially_paid" ∉ invoiceStatusValues ∧ "unpaid" ∉ invoiceStatusValues) ∧
      (completedTotal (create_payment c3DB
          { invoice_id := 1, amount := 10, payment_date := ⟨2026, 10, 13⟩,
            payment_method := "cash" }).1 1 = 0 →
        0 < c3Inv.total_amount → inv'.status = "unpaid") :=
  payment_status_always_overwritten c3DB
    { invoice_id := 1, amount := 10, payment_date := ⟨2026, 10, 13⟩,
      payment_method := "cash" } c3Inv (by rfl)

def c4Pay : PaymentInput :=
  { invoice_id := 7, amount := 50, payment_date := ⟨2026, 10, 12⟩,
    payment_method := "cash" }

/-- C4 counterexample: `create_payment` against the id 7, which names no
invoice, does not fail — it has no error path at all — and the Payment
row is persisted; the status recomputation is silently skipped. -/
theorem payment_persisted_without_invoice :
    get_invoice emptyFinDB 7 = none ∧
    (create_payment emptyFinDB c4Pay).1.payments =
      [newPaymentRow emptyFinDB c4Pay] ∧
    (create_payment emptyFinDB c4Pay).2 = newPaymentRow emptyFinDB c4Pay := by
  exact ⟨rfl, rfl, rfl⟩

/-- C4 amended: `create_payment` on a non-existent invoice id succeeds:
the Payment row is appended to the store, the invoice table is left
unchanged, and the invoice-status update is a silent no-op. -/
theorem create_payment_missing_invoice (db : FinDB) (inp : PaymentInput)
    (h : get_invoice db inp.invoice_id = none) :
    (create_payment db inp).1 = insertPaymentState db inp ∧
    (create_payment db inp).1.invoices = db.invoices ∧
    (create_payment db inp).1.payments = db.payments ++ [newPaymentRow db inp] := by
  have h1 : get_invoice (insertPaymentState db inp) inp.invoice_id = none := h
  refine ⟨?_, ?_, ?_⟩ <;>
    · simp only [create_payment, update_invoice_payment_status, h1]
      try simp [insertPaymentState]

/-- C4 amended, witness: concrete payment against missing invoice id 7. -/
theorem create_payment_missing_invoice_witness :
    (create_payment emptyFinDB c4Pay).1 = insertPaymentState emptyFinDB c4Pay ∧
    (create_payment emptyFinDB c4Pay).1.invoices = emptyFinDB.invoices ∧
    (create_payment emptyFinDB c4Pay).1.payments =
      emptyFinDB.payments ++ [newPaymentRow emptyFinDB c4Pay] :=
  create_payment_missing_invoice emptyFinDB c4Pay (by rfl)

def c9Inv : Invoice :=
  { id := 1, invoice_number := "INV-202610-0001", client_id := 1,
    issue_date := ⟨2026, 10, 1⟩, due_date := ⟨2026, 10, 31⟩,
    subtotal := 100, tax_amount := 18, total_amount := 118,
    status := "sent", notes := "", created_at := ⟨2026, 10, 1⟩ }

def c9ItemA : InvoiceItem :=
  { id := 1, invoice_id := 1, description := "audit", quantity := 1,
    unit_price := 100, total_price := 100, tax_rate := 18 }

def c9ItemB : InvoiceItem :=
  { id := 2, invoice_id := 2, description := "other", quantity := 1,
    unit_price := 40, total_price := 40, tax_rate := 0 }

def c9PayA : Payment :=
  { id := 1, invoice_id := 1, amount := 60, payment_date := ⟨2026, 10, 5⟩,
    payment_method := "cash", status := "completed" }

def c9DB : FinDB :=
  { invoices := [c9Inv], items := [c9ItemA, c9ItemB], payments := [c9PayA],
    nextInvoiceId := 2, nextItemId := 3, nextPaymentId := 2 }

/-- C9: `delete_invoice` on an unknown id reports failure (`NotFound` at
the endpoint) and leaves the store unchanged; on an existing id it
reports success, afterwards zero items with that `invoice_id` remain and
the payments table — including payments referencing the deleted
invoice — is untouched, and (when the id was stored at most once, as the
unique column guarantees) the invoice row is gone. -/
theorem delete_invoice_cascade (db : FinDB) (invoice_id : Nat) :
    (get_invoice db invoice_id = none → delete_invoice db invoice_id = (db, false)) ∧
    ((get_invoice db invoice_id).isSome = true →
      (delete_invoice db invoice_id).2 = true ∧
      ((delete_invoice db invoice_id).1.items.filter
        (fun it => it.invoice_id = invoice_id)).length = 0 ∧
      (delete_invoice db invoice_id).1.payments = db.payments ∧
      ((db.invoices.filter (fun i => i.id = invoice_id)).length ≤ 1 →
        get_invoice (delete_invoice db invoice_id).1 invoice_id = none)) := by
  constructor
  · intro h
    simp [delete_invoice, h]
  · intro h
    obtain ⟨inv, hinv⟩ := Option.isSome_iff_exists.mp h
    refine ⟨?_, ?_, ?_, ?_⟩
    · simp [delete_invoice, hinv]
    · simp only [delete_invoice, hinv]
      rw [List.filter_filter]
      simp
    · simp [delete_invoice, hinv]
    · intro hcount
      simp only [delete_invoice, hinv]
      exact find?_eraseP_of_count_le_one db.invoices _ hcount

/-- C9 witness: deleting the unknown id 99 changes nothing; deleting
invoice 1 removes it, leaves zero items pointing at it, and keeps the
payment that referenced it. -/
theorem delete_invoice_cascade_witness :
    delete_invoice c9DB 99 = (c9DB, false) ∧
    ((delete_invoice c9DB 1).1.items.filter
      (fun it => it.invoice_id = 1)).length = 0 ∧
    (delete_invoice c9DB 1).1.payments = c9DB.payments ∧
    get_invoice (delete_invoice c9DB 1).1 1 = none := by
  have h2 := (delete_invoice_cascade c9DB 1).2 (by rfl)
  exact ⟨(delete_invoice_cascade c9DB 99).1 (by rfl),
    h2.2.1, h2.2.2.1, h2.2.2.2 (by decide)⟩

def c8User0 : User :=
  { id := 1, email := "old@x.com", username := "olduser", full_name := "Old User",
    hashed_password := get_password_hash "pw0", role := "client", status := "active" }

def c8DB : UserDB := { users := [c8User0], audit_logs := [], nextUserId := 2 }

def c8Data : UserCreateInput :=
  { email := "new@x.com", username := "newuser", full_name := "New User",
    password := "pw1" }

def c8User : User :=
  { id := 2, email := "new@x.com", username := "newuser", full_name := "New User",
    hashed_password := get_password_hash "pw1", role := "client", status := "pending" }

def c8Log : AuditLog :=
  { user_id := 2, action := "CREATE_USER", resource := "user", resource_id := some 2 }

def c8Expected : UserDB × User :=
  ({ users := [c8User0, c8User], audit_logs := [c8Log], nextUserId := 3 }, c8User)

/-- C8: `create_user` (the `register` service path) fails with the
duplicate-key error exactly when the supplied username or email already
belongs to a stored user; otherwise it persists a new user whose role
defaults to "client" when not supplied and whose status is "pending",
with the password stored through `get_password_hash`. -/
theorem register_conflict_exactly (db : UserDB) (data : UserCreateInput) :
    ((∃ e, create_user db data = .error e) ↔
      ((get_user_by_username db data.username).isSome = true ∨
       (get_user_by_email db data.email).isSome = true)) ∧
    (∀ r : UserDB × User, create_user db data = .ok r →
      r.1.users = db.users ++ [r.2] ∧
      r.2.username = data.username ∧
      r.2.email = data.email ∧
      r.2.role = data.role.getD "client" ∧
      r.2.status = "pending" ∧
      r.2.hashed_password = get_password_hash data.password) := by
  constructor
  · cases h1 : (get_user_by_username db data.username).isSome with
    | true => simp [create_user, h1]
    | false =>
      cases h2 : (get_user_by_email db data.email).isSome with
      | true => simp [create_user, h1, h2]
      | false => simp [create_user, h1, h2]
  · intro r hr
    cases h1 : (get_user_by_username db data.username).isSome with
    | true => rw [create_user, if_pos h1] at hr; exact absurd hr (by simp)
    | false =>
      cases h2 : (get_user_by_email db data.email).isSome with
      | true =>
        rw [create_user, if_neg (by simp [h1]), if_pos h2] at hr
        exact absurd hr (by simp)
      | false =>
        rw [create_user, if_neg (by simp [h1]), if_neg (by simp [h2])] at hr
        obtain rfl := Except.ok.inj hr
        exact ⟨rfl, rfl, rfl, rfl, rfl, rfl⟩

/-- C8 witness: registering a fresh username/email over a store holding
one other user persists a "client"/"pending" user. -/
theorem register_conflict_exactly_witness :
    c8Expected.1.users = c8DB.users ++ [c8Expected.2] ∧
    c8Expected.2.role = "client" ∧
    c8Expected.2.status = "pending" ∧
    c8Expected.2.hashed_password = get_password_hash "pw1" := by
  have h := (register_conflict_exactly c8DB c8Data).2 c8Expected (by rfl)
  exact ⟨h.1, h.2.2.2.1, h.2.2.2.2.1, h.2.2.2.2.2⟩

def c1User : User :=
  { id := 1, email := "pat@x.com", username := "pat", full_name := "Pat Doe",
    hashed_password := get_password_hash "pw", role := "client", status := "pending" }

def c1DB : UserDB := { users := [c1User], audit_logs := [], nextUserId := 2 }

/-- C1 counterexample: a user whose status is "pending" (not "active")
authenticates successfully with correct credentials — `authenticate_user`
returns the user, `login` issues a token — and `get_current_user`
resolves a valid unexpired token for that user; no status check exists
on either path. -/
theorem inactive_user_authenticates :
    c1User.status = "pending" ∧
    c1User.status ≠ "active" ∧
    (authenticate_user 5 c1DB "pat" "pw").isSome = true ∧
    (login 5 30 c1DB "pat" "pw").isSome = true ∧
    get_current_user 10 c1DB { sub := some "pat", exp := 20, sig := SECRET_KEY } =
      some c1User := by
  refine ⟨rfl, by decide, rfl, rfl, rfl⟩

/-- C1 amended: authentication never consults `User.status`: for any
stored user — whatever the status — `authenticate_user` succeeds
whenever the username resolves and the password verifies (stamping
`last_login`), `login` then issues a token, and `get_current_user`
resolves any unexpired properly-signed token whose `sub` names the
user. -/
theorem auth_ignores_user_status (now : Nat) (db : UserDB)
    (username password : String) (u : User)
    (hfind : get_user_by_username db username = some u)
    (hpw : verify_password password u.hashed_password = true) :
    authenticate_user now db username password =
      some ({ db with
              users := replaceUserByName db.users username { u with last_login := some now } },
            { u with last_login := some now }) ∧
    (login now 30 db username password).isSome = true ∧
    ∀ exp, now < exp →
      get_current_user now db { sub := some username, exp := exp, sig := SECRET_KEY } =
        some u := by
  have hauth : authenticate_user now db username password =
      some ({ db with
              users := replaceUserByName db.users username { u with last_login := some now } },
            { u with last_login := some now }) := by
    simp [authenticate_user, hfind, hpw]
  refine ⟨hauth, ?_, ?_⟩
  · simp [login, hauth]
  · intro exp hexp
    simp [get_current_user, verify_token, hexp, hfind]

/-- C1 amended, witness: the concrete "pending" user authenticates and
is resolved from a valid token. -/
theorem auth_ignores_user_status_witness :
    authenticate_user 5 c1DB "pat" "pw" =
      some ({ c1DB with
              users := replaceUserByName c1DB.users "pat" { c1User with last_login := some 5 } },
            { c1User with last_login := some 5 }) ∧
    (login 5 30 c1DB "pat" "pw").isSome = true ∧
    get_current_user 5 c1DB { sub := some "pat", exp := 20, sig := SECRET_KEY } =
      some c1User := by
  have h := auth_ignores_user_status 5 c1DB "pat" "pw" c1User (by rfl) (by rfl)
  exact ⟨h.1, h.2.1, h.2.2 20 (by decide)⟩

end ComplianceServer
